import Mathlib

/-!
Shallow embedding of the data-synchronization core of `wandb-tui`
(`src/run/filter.py`, `src/run/models.py`, `src/run/services.py`).

The external `jmespath` library is out of scope (an external collaborator in
the design); a compiled expression is modelled as a search function from a
record mapping to a JSON-like value, and `jmespath.compile` as an explicit
parameter `compile : String → Except String Pred` that either yields such a
function or fails with a diagnostic string.
-/

namespace WandbTui

/-- JSON-like values: the record attribute mapping fed to `Filter.matches`
(`run.dict()` in the source) and the result of a jmespath search. -/
inductive JValue where
  | null : JValue
  | bool (b : Bool) : JValue
  | num (n : Int) : JValue
  | str (s : String) : JValue
  | list (xs : List JValue) : JValue
  | obj (fields : List (String × JValue)) : JValue

/-- Python truthiness (`bool(val)` in `Filter.matches`): `None`, `False`, `0`,
`""`, `[]` and `{}` are falsy, everything else is truthy. -/
def JValue.truthy : JValue → Bool
  | .null => false
  | .bool b => b
  | .num n => n != 0
  | .str s => !s.isEmpty
  | .list xs => !xs.isEmpty
  | .obj fs => !fs.isEmpty

/-- A compiled jmespath expression: a total search function over a record
mapping.  `jmespath` returns `None` for an absent path, modelled by
`JValue.null`. -/
def Pred := JValue → JValue

/-- The external `jmespath.compile`: either a compiled expression or the
diagnostic message of a `JMESPathError`. -/
def Compile := String → Except String Pred

/-- Whitespace characters stripped by Python's `str.strip()` (ASCII part). -/
def isPySpace (c : Char) : Bool :=
  c = ' ' || c = '\t' || c = '\n' || c = '\r' || c = '\x0b' || c = '\x0c'

/-- Python `query.strip()`: drop leading and trailing whitespace. -/
def pyStrip (s : String) : String :=
  (((s.toList.dropWhile isPySpace).reverse.dropWhile isPySpace).reverse).asString

/-- `FilterError` from `src/run/filter.py`: `args` keeps the positional
arguments (here the original diagnostic), `message` is what `str()` shows:
`"Invalid Filter: {mes}"` when the keyword `mes` is given, else the bare
`"Invalid Filter"`. -/
structure FilterError where
  args : List String
  message : String
deriving DecidableEq

/-- The `FilterError(*args, mes=...)` constructor. -/
def FilterError.make (args : List String) (mes : Option String) : FilterError :=
  { args := args
    message := match mes with
      | some m => "Invalid Filter: " ++ m
      | none => "Invalid Filter" }

/-- `Filter` from `src/run/filter.py`: `exp` is the compiled expression,
`none` standing for Python's `None` (match everything). -/
structure Filter where
  exp : Option Pred

/-- `Filter.__init__`: compile the initial query; on a `JMESPathError` the
exception is swallowed and `exp` is set to `None`. -/
def Filter.init (compile : Compile) (query : String) : Filter :=
  match compile query with
  | .ok p => ⟨some p⟩
  | .error _ => ⟨none⟩

/-- `Filter.matches`: `True` when `exp is None`, otherwise the truthiness of
`exp.search(data)`. -/
def Filter.matches (f : Filter) (data : JValue) : Bool :=
  match f.exp with
  | none => true
  | some exp => (exp data).truthy

/-- `Filter.update_query`: strip the query; empty means `exp = None` (no
error).  Otherwise recompile; on success install the new expression; on a
`JMESPathError e`, set `exp = None` *and then* raise `FilterError(e)`.  The
returned pair is (state of `self` after the call, raised error if any). -/
def Filter.update_query (compile : Compile) (_f : Filter) (query : String) :
    Filter × Option FilterError :=
  if pyStrip query = "" then
    (⟨none⟩, none)
  else
    match compile (pyStrip query) with
    | .ok p => (⟨some p⟩, none)
    | .error e => (⟨none⟩, some (FilterError.make [e] none))

/-- `RunData` from `src/run/models.py` (the `created_at` datetime is treated
as an opaque string). -/
structure RunData where
  id : String
  name : String
  state : String
  created_at : String
  url : String
  path : String
  config : List (String × JValue)

/-- `RunData.dict`: the record re-exposed as a key→value mapping
(`self.__dict__`), including the nested `config`. -/
def RunData.dict (r : RunData) : JValue :=
  .obj [("id", .str r.id), ("name", .str r.name), ("state", .str r.state),
        ("created_at", .str r.created_at), ("url", .str r.url),
        ("path", .str r.path), ("config", .obj r.config)]

/-- The five notification shapes broadcast to observers. -/
inductive Event where
  | loadingStarted : Event
  | dataLoaded (r : RunData) : Event
  | loadingCompleted (total_count : Nat) : Event
  | loadingFailed (e : String) : Event
  | filterChanged (filtered_runs : List RunData) (e : Option FilterError) : Event

/-- `WandbRunsModel` from `src/run/models.py`: the accumulated record list,
the registered observers (identities), and the current filter. -/
structure WandbRunsModel where
  runs : List RunData
  observers : List Nat
  filter : Filter

/-- `WandbRunsModel.add_observer`. -/
def WandbRunsModel.add_observer (m : WandbRunsModel) (o : Nat) : WandbRunsModel :=
  { m with observers := m.observers ++ [o] }

/-- `WandbRunsModel.remove_observer`: `if observer in self._observers:
self._observers.remove(observer)` — Python `list.remove` drops the first
occurrence; an unregistered observer is a guarded no-op. -/
def WandbRunsModel.remove_observer (m : WandbRunsModel) (o : Nat) : WandbRunsModel :=
  if o ∈ m.observers then { m with observers := m.observers.erase o } else m

/-- `WandbRunsModel.get_filtered_runs`: the list comprehension
`[run for run in self.runs if self._filter.matches(run.dict())]`. -/
def WandbRunsModel.get_filtered_runs (m : WandbRunsModel) : List RunData :=
  m.runs.filter (fun run => m.filter.matches run.dict)

/-- `WandbRunsModel.find_run_by_id`: linear scan, returning at the first
record whose `id` equals `run_id`, else `None`. -/
def WandbRunsModel.find_run_by_id (m : WandbRunsModel) (run_id : String) :
    Option RunData :=
  m.runs.find? (fun run => run.id = run_id)

/-- `WandbRunsModel.notify_filter_changed`: broadcast
`on_filter_changed(self.get_filtered_runs(), error)` (the filtered list is
recomputed with the *current* filter). -/
def WandbRunsModel.notify_filter_changed (m : WandbRunsModel)
    (error : Option FilterError) : List Event :=
  [.filterChanged m.get_filtered_runs error]

/-- `WandbRunsModel.edit_filter`: delegate to `Filter.update_query`; when it
raises `FilterError`, notify with the error; otherwise notify with no error.
Either way the filter state left by `update_query` is kept. -/
def WandbRunsModel.edit_filter (compile : Compile) (m : WandbRunsModel)
    (filter_text : String) : WandbRunsModel × List Event :=
  match m.filter.update_query compile filter_text with
  | (f, some e) =>
      let m := { m with filter := f }
      (m, m.notify_filter_changed (some e))
  | (f, none) =>
      let m := { m with filter := f }
      (m, m.notify_filter_changed none)

/-- `WandbRunsModel.notify_data_loaded`: append the record, then broadcast
`on_data_loaded`. -/
def WandbRunsModel.notify_data_loaded (m : WandbRunsModel) (run_data : RunData) :
    WandbRunsModel × List Event :=
  ({ m with runs := m.runs ++ [run_data] }, [.dataLoaded run_data])

/-- `WandbRunsModel.clear_runs`: `self.runs.clear()` — nothing else; no
notification is sent. -/
def WandbRunsModel.clear_runs (m : WandbRunsModel) : WandbRunsModel × List Event :=
  ({ m with runs := [] }, [])

/-- The loop of `WandbApiDataSource.fetch_runs` from `src/run/models.py`
(the older load path, reached through `WandbRunsModel.load_runs`): each
record goes through `observer.notify_data_loaded` (which appends and
notifies), counting as it goes; on exhaustion `notify_data_loading_completed`
with the count, on an exception `notify_data_loading_failed` (and the
exception is re-raised to the caller). -/
def fetchLoop (observer : WandbRunsModel) :
    List RunData → Nat → Option String → WandbRunsModel × List Event
  | [], count, none => (observer, [.loadingCompleted count])
  | [], _, some e => (observer, [.loadingFailed e])
  | r :: rs, count, tail =>
      let step := observer.notify_data_loaded r
      let next := fetchLoop step.1 rs (count + 1) tail
      (next.1, step.2 ++ next.2)

/-- `WandbApiDataSource.fetch_runs`: notify `loading_started` first (no
clearing of the model's records on this path), then the fetch loop.  The
remote iterator's outcome is passed as data, as for `RunService.load_runs`.
`WandbRunsModel.load_runs` delegates here unchanged and unguarded. -/
def WandbApiDataSource.fetch_runs (fetched : List RunData × Option String)
    (observer : WandbRunsModel) : WandbRunsModel × List Event :=
  let next := fetchLoop observer fetched.1 0 fetched.2
  (next.1, .loadingStarted :: next.2)

/-- Modelled from the spec: `RunService` in `src/run/services.py` is written
against a Runs Model API (`add_run`, `get_all_runs`, a notify-only
`notify_data_loaded`, a two-argument `notify_filter_changed`) that is absent
from `src/`; only its callers exist.  Per spec §3/§4.3 its state is the
insertion-ordered record list. -/
structure SModel where
  runs : List RunData

/-- Modelled from the spec: `add_run` appends the record to the main list
(spec §4.3 `recordLoaded(r)`: appends `r`). -/
def SModel.add_run (m : SModel) (run_data : RunData) : SModel :=
  { runs := m.runs ++ [run_data] }

/-- Modelled from the spec: `get_all_runs` returns the accumulated record
list. -/
def SModel.get_all_runs (m : SModel) : List RunData :=
  m.runs

/-- Modelled from the spec: `clear_runs` drops all records and does not
notify by itself (spec §4.3). -/
def SModel.clear_runs (_m : SModel) : SModel :=
  { runs := [] }

/-- `RunService` from `src/run/services.py`: holds its own `_filter`
(constructed from the empty query, i.e. always-true). -/
structure RunService where
  filter : Filter

/-- `RunService.run_matches_filter`: evaluate the service's current filter
against the record's mapping. -/
def RunService.run_matches_filter (svc : RunService) (run_data : RunData) : Bool :=
  svc.filter.matches run_data.dict

/-- The `for run_data in self._repository.get_all(...)` loop body of
`RunService.load_runs`: append each yielded record (`model.add_run`), notify
`on_data_loaded`, count it; on exhaustion notify `loading_completed(count)`;
when the lazy repository sequence ends in an exception instead, notify
`loading_failed` with it and stop. -/
def RunService.loadLoop (model : SModel) :
    List RunData → Nat → Option String → SModel × List Event
  | [], count, none => (model, [.loadingCompleted count])
  | [], _, some e => (model, [.loadingFailed e])
  | r :: rs, count, tail =>
      let model := model.add_run r
      let next := RunService.loadLoop model rs (count + 1) tail
      (next.1, .dataLoaded r :: next.2)

/-- `RunService.load_runs`: `model.clear_runs()` (silent) →
`model.notify_data_loading_started()` → the fetch loop.  The repository
outcome is passed as data: the records the lazy iterator yields before
terminating, plus the terminal error when `get_all` raises instead of
finishing.  The `except` clause notifies `loading_failed` and swallows the
exception. -/
def RunService.load_runs (fetched : List RunData × Option String)
    (model : SModel) : SModel × List Event :=
  let model := model.clear_runs
  let next := RunService.loadLoop model fetched.1 0 fetched.2
  (next.1, .loadingStarted :: next.2)

/-- `RunService.update_filter`: `self._filter.update_query(filter_text)`;
when it returns, recompute the filtered list with the (now updated) filter
and notify it with no error; when it raises `FilterError` (by which time
`update_query` has already reset `self._filter.exp` to `None`), notify
`model.get_all_runs()` — the full list — together with the error. -/
def RunService.update_filter (compile : Compile) (svc : RunService)
    (filter_text : String) (model : SModel) : RunService × List Event :=
  match svc.filter.update_query compile filter_text with
  | (f, none) =>
      let svc : RunService := ⟨f⟩
      let filtered := model.get_all_runs.filter (fun run => svc.run_matches_filter run)
      (svc, [.filterChanged filtered none])
  | (f, some e) =>
      (⟨f⟩, [.filterChanged model.get_all_runs (some e)])

/-!  Concrete instances used by witnesses and counterexamples.  `jmesDemo`
stands in for the external `jmespath` library: it recognises two fixed query
texts and rejects everything else with a diagnostic, the shape an actual
`JMESPathError` carries. -/

/-- A compiled expression whose search never finds anything (`None` result on
every record, hence falsy). -/
def predNone : Pred := fun _ => JValue.null

/-- A compiled expression whose search always yields a truthy value. -/
def predTrue : Pred := fun _ => JValue.bool true

/-- A concrete stand-in for `jmespath.compile`. -/
def jmesDemo : Compile := fun q =>
  if q = "yes" then .ok predTrue
  else if q = "no" then .ok predNone
  else .error ("Bad jmespath expression: " ++ q)

/-- A sample record. -/
def demoR1 : RunData :=
  ⟨"r1", "alpha", "finished", "2024-01-01", "url1", "e/p/r1", []⟩

/-- A second sample record with the same `id` as `demoR1` but a different
`name` (a duplicate by id, appended later). -/
def demoR2 : RunData :=
  ⟨"r1", "beta", "running", "2024-01-02", "url2", "e/p/r2", []⟩

/-- A third sample record with a fresh `id`. -/
def demoR3 : RunData :=
  ⟨"r3", "gamma", "running", "2024-01-03", "url3", "e/p/r3", []⟩

/-- A service whose previously-installed predicate rejects every record. -/
def demoSvc : RunService := ⟨⟨some predNone⟩⟩

/-- A service model holding one record. -/
def demoSM : SModel := ⟨[demoR1]⟩

/-- A model holding two records that share an id (`demoR2` appended after
`demoR1`), with the always-true filter. -/
def demoDupModel : WandbRunsModel := ⟨[demoR1, demoR2], [0], ⟨none⟩⟩

/-- A model with two distinct records, one observer and no filter. -/
def demoModelNone : WandbRunsModel := ⟨[demoR1, demoR3], [0], ⟨none⟩⟩

/-- A model with two observers. -/
def demoObsModel : WandbRunsModel := ⟨[demoR1], [1, 2], ⟨none⟩⟩

/-!  Theorems. -/

/-- Stripping a string that consists only of whitespace yields the empty
string. -/
theorem pyStrip_of_all_space (s : String) (h : s.toList.all isPySpace = true) :
    pyStrip s = "" := by
  unfold pyStrip
  have h1 : s.toList.dropWhile isPySpace = [] :=
    List.dropWhile_eq_nil_iff.mpr (List.all_eq_true.mp h)
  rw [h1]
  rfl

/-- The filter with `exp = None` matches every record mapping. -/
theorem matches_of_exp_none (f : Filter) (h : f.exp = none) (data : JValue) :
    f.matches data = true := by
  unfold Filter.matches
  rw [h]

/-- Claim C5: at every instant `get_filtered_runs` is exactly the
subsequence, in insertion order, of the records the current predicate
matches; when `exp` is `None` it is the whole list; and a predicate whose
search result is falsy on a record makes `matches` report no-match (`false`),
never an error (`matches` is total by construction). -/
theorem get_filtered_runs_spec (m : WandbRunsModel) :
    m.get_filtered_runs.Sublist m.runs
  ∧ (∀ r, r ∈ m.get_filtered_runs ↔ r ∈ m.runs ∧ m.filter.matches r.dict = true)
  ∧ (m.filter.exp = none → m.get_filtered_runs = m.runs)
  ∧ (∀ (p : Pred) (r : RunData), m.filter.exp = some p → (p r.dict).truthy = false →
      m.filter.matches r.dict = false) := by
  refine ⟨List.filter_sublist m.runs, fun r => List.mem_filter, ?_, ?_⟩
  · intro h
    unfold WandbRunsModel.get_filtered_runs
    have hm : ∀ r : RunData, m.filter.matches r.dict = true :=
      fun r => matches_of_exp_none m.filter h r.dict
    calc m.runs.filter (fun run => m.filter.matches run.dict)
        = m.runs.filter (fun _ => true) := by
          apply List.filter_congr
          intro r _
          exact hm r
      _ = m.runs := List.filter_true m.runs
  · intro p r hp hfalse
    unfold Filter.matches
    rw [hp]
    exact hfalse

/-- Witness for C5 at a concrete model with no filter installed. -/
theorem get_filtered_runs_spec_witness :
    demoModelNone.get_filtered_runs = demoModelNone.runs :=
  (get_filtered_runs_spec demoModelNone).2.2.1 rfl

/-- Claim C7: a query text consisting only of whitespace (the empty string
included) never makes `update_query` report a `CompileError`, and installs
the always-true predicate: `matches` afterwards returns `true` on every
record mapping. -/
theorem update_query_whitespace (compile : Compile) (f : Filter) (q : String)
    (h : q.toList.all isPySpace = true) :
    f.update_query compile q = (⟨none⟩, none)
  ∧ ∀ data, (f.update_query compile q).1.matches data = true := by
  have hs : pyStrip q = "" := pyStrip_of_all_space q h
  constructor
  · unfold Filter.update_query
    rw [hs]
    rfl
  · intro data
    unfold Filter.update_query
    rw [hs]
    rfl

/-- Witness for C7 at the concrete query `" \t"`. -/
theorem update_query_whitespace_witness :
    (Filter.mk (some predNone)).update_query jmesDemo (" \t") = (⟨none⟩, none) :=
  (update_query_whitespace jmesDemo ⟨some predNone⟩ " \t" (by decide)).1

/-- Claim C8: `clear_runs` empties the record list, leaves the observer set
and the filter untouched, and emits no observer notification by itself. -/
theorem clear_runs_frame (m : WandbRunsModel) :
    m.clear_runs.1.runs = []
  ∧ m.clear_runs.1.observers = m.observers
  ∧ m.clear_runs.1.filter = m.filter
  ∧ m.clear_runs.2 = [] :=
  ⟨rfl, rfl, rfl, rfl⟩

/-- Claim C9: `Filter.__init__` is total (no exception escapes, by the very
type of the embedding): a failed initial compilation silently installs the
always-true predicate `exp = None`, a successful one installs the compiled
expression; after a failed initial compilation every record matches. -/
theorem filter_init_total (compile : Compile) (q : String) :
    (∀ d, compile q = .error d → Filter.init compile q = ⟨none⟩)
  ∧ (∀ p, compile q = .ok p → Filter.init compile q = ⟨some p⟩)
  ∧ (∀ d data, compile q = .error d →
      (Filter.init compile q).matches data = true) := by
  refine ⟨?_, ?_, ?_⟩
  · intro d hd
    unfold Filter.init
    rw [hd]
  · intro p hp
    unfold Filter.init
    rw [hp]
  · intro d data hd
    unfold Filter.init
    rw [hd]
    rfl

/-- Witness for C9 at the concrete invalid query `"]["`. -/
theorem filter_init_total_witness :
    (Filter.init jmesDemo ("][")).matches demoR1.dict = true :=
  (filter_init_total jmesDemo ("][")).2.2 ("Bad jmespath expression: ][") demoR1.dict rfl

/-- Claim C10: removing an unregistered observer is a total no-op (the
embedding is total, mirroring the `if observer in self._observers` guard that
prevents `ValueError`); removing a registered one drops exactly its first
occurrence and touches nothing else. -/
theorem remove_observer_spec (m : WandbRunsModel) (o : Nat) :
    (o ∉ m.observers → m.remove_observer o = m)
  ∧ (∀ pre post, m.observers = pre ++ o :: post → o ∉ pre →
      (m.remove_observer o).observers = pre ++ post
    ∧ (m.remove_observer o).runs = m.runs
    ∧ (m.remove_observer o).filter = m.filter) := by
  constructor
  · intro h
    unfold WandbRunsModel.remove_observer
    rw [if_neg h]
  · intro pre post hsplit hpre
    have hmem : o ∈ m.observers := by
      rw [hsplit]
      exact List.mem_append_right pre (List.mem_cons_self o post)
    have herase : m.observers.erase o = pre ++ post := by
      rw [hsplit, List.erase_append_right _ hpre, List.erase_cons_head]
    unfold WandbRunsModel.remove_observer
    rw [if_pos hmem]
    exact ⟨herase, rfl, rfl⟩

/-- Witness for C10: removing observer `2` from `[1, 2]` leaves `[1]`. -/
theorem remove_observer_spec_witness :
    (demoObsModel.remove_observer 2).observers = [1] :=
  ((remove_observer_spec demoObsModel 2).2 [1] [] rfl (by decide)).1

/-- Filtering a record list through the `None` (always-true) filter keeps
every record. -/
theorem filter_none_all (runs : List RunData) :
    runs.filter (fun run => (Filter.mk none).matches run.dict) = runs := by
  calc runs.filter (fun run => (Filter.mk none).matches run.dict)
      = runs.filter (fun _ => true) := List.filter_congr (fun r _ => rfl)
    _ = runs := List.filter_true runs

/-- `edit_filter` installs exactly the filter state `update_query` left in
`self._filter` (on success the new expression, on failure `None`) and touches
nothing else of the model. -/
theorem edit_filter_state (compile : Compile) (m : WandbRunsModel) (t : String) :
    (m.edit_filter compile t).1
      = { m with filter := (m.filter.update_query compile t).1 } := by
  unfold WandbRunsModel.edit_filter
  rcases hq : m.filter.update_query compile t with ⟨f, e⟩
  cases e <;> rfl

/-- `update_query` on the empty query installs the always-true filter and
reports no error. -/
theorem update_query_empty (compile : Compile) (f : Filter) :
    f.update_query compile ("") = (⟨none⟩, none) := rfl

/-- Claim C6: for every filter text `t` and every model, `edit_filter t`
followed by `edit_filter ""` restores the always-true predicate
(`exp = None`), never changes the record list, and leaves the filtered view
equal to the full unfiltered record list. -/
theorem edit_filter_empty_round_trip (compile : Compile) (m : WandbRunsModel)
    (t : String) :
    ((m.edit_filter compile t).1.edit_filter compile ("")).1.filter.exp = none
  ∧ ((m.edit_filter compile t).1.edit_filter compile ("")).1.runs = m.runs
  ∧ ((m.edit_filter compile t).1.edit_filter compile ("")).1.get_filtered_runs
      = m.runs := by
  have h2 : ((m.edit_filter compile t).1.edit_filter compile ("")).1
      = { (m.edit_filter compile t).1 with filter := ⟨none⟩ } := by
    rw [edit_filter_state compile _ (""), update_query_empty]
  have hruns : (m.edit_filter compile t).1.runs = m.runs := by
    rw [edit_filter_state compile m t]
  refine ⟨?_, ?_, ?_⟩
  · rw [h2]
  · rw [h2]
    exact hruns
  · rw [h2]
    show ((m.edit_filter compile t).1).runs.filter
        (fun run => (Filter.mk none).matches run.dict) = m.runs
    rw [filter_none_all, hruns]

/-- Unrolling the fetch loop of `RunService.load_runs`: every yielded record
is appended in fetch order with an `on_data_loaded` notification each, then
one terminal notification — `loading_completed` with the running count on
exhaustion, `loading_failed` with the error when the lazy sequence raised. -/
theorem loadLoop_spec (rs : List RunData) :
    ∀ (m : SModel) (c : Nat) (tail : Option String),
    RunService.loadLoop m rs c tail =
      (⟨m.runs ++ rs⟩,
       rs.map Event.dataLoaded ++
         [match tail with
          | none => Event.loadingCompleted (c + rs.length)
          | some e => Event.loadingFailed e]) := by
  induction rs with
  | nil =>
      intro m c tail
      cases tail <;> simp [RunService.loadLoop]
  | cons r rs ih =>
      intro m c tail
      cases tail <;> simp [RunService.loadLoop, SModel.add_run, ih]
      omega

/-- Claim C3: one `load_runs` call performs exactly: clear the model's
records (silently), notify `loading_started`, then append-and-notify each
fetched record in fetch order, then notify `loading_completed` with the
record count on exhaustion — or `loading_failed` with the repository's error
and nothing further; the final record list is exactly the records delivered
before the terminal event, whatever was in the model before is cleared, and
on failure the already-delivered records remain (no rollback). -/
theorem load_runs_sequence (recs : List RunData) (err : Option String)
    (model : SModel) :
    RunService.load_runs (recs, err) model =
      (⟨recs⟩,
       Event.loadingStarted :: (recs.map Event.dataLoaded ++
         [match err with
          | none => Event.loadingCompleted recs.length
          | some e => Event.loadingFailed e])) := by
  cases err <;> simp [RunService.load_runs, SModel.clear_runs, loadLoop_spec]

/-- Claim C2 demonstration (code defect): `RunService.load_runs` consults no
"load in flight" flag — none exists anywhere in the state — so a second call
is never a no-op.  Concretely: a first load fails after delivering one record
(model holds 1 run); a second call on the same model fires a duplicate
`loading_started` event and changes the record count from 1 to 2.  The final
conjunct shows the defect is universal: in every state, every call emits
`loading_started` first. -/
theorem load_runs_unguarded_reentry :
    (RunService.load_runs ([demoR1], some ("FetchError: connection lost")) ⟨[]⟩).2
      = [.loadingStarted, .dataLoaded demoR1,
         .loadingFailed ("FetchError: connection lost")]
  ∧ (RunService.load_runs ([demoR1], some ("FetchError: connection lost"))
      ⟨[]⟩).1.runs.length = 1
  ∧ (RunService.load_runs ([demoR1, demoR3], none)
      (RunService.load_runs ([demoR1], some ("FetchError: connection lost")) ⟨[]⟩).1).2
      = [.loadingStarted, .dataLoaded demoR1, .dataLoaded demoR3,
         .loadingCompleted 2]
  ∧ (RunService.load_runs ([demoR1, demoR3], none)
      (RunService.load_runs ([demoR1], some ("FetchError: connection lost")) ⟨[]⟩).1).1.runs.length
      = 2
  ∧ ∀ (fetched : List RunData × Option String) (model : SModel),
      ((RunService.load_runs fetched model).2).head? = some .loadingStarted :=
  ⟨rfl, rfl, rfl, rfl, fun _ _ => rfl⟩

/-- Counterexample to claim C4 as stated: in a model holding two records with
the same id `"r1"` — `demoR1` appended first, `demoR2` appended most
recently — `find_run_by_id` returns `demoR1`, the *first*-appended one, while
the most-recently-appended record with that id is `demoR2 ≠ demoR1`. -/
theorem find_run_by_id_most_recent_fails :
    demoDupModel.find_run_by_id ("r1") = some demoR1
  ∧ (demoDupModel.runs.filter (fun r => r.id = "r1")).getLast? = some demoR2
  ∧ demoR1 ≠ demoR2 :=
  ⟨rfl, rfl, fun h => absurd (congrArg RunData.name h) (by decide)⟩

/-- Claim C4 amended: for every sequence of appended records and every id,
`find_run_by_id` returns the *first*-appended (earliest) record carrying that
id when one exists, and `None` exactly when no record carries that id. -/
theorem find_run_by_id_first_match (m : WandbRunsModel) (i : String) :
    (m.find_run_by_id i = none ↔ ∀ r ∈ m.runs, r.id ≠ i)
  ∧ ∀ pre r post, m.runs = pre ++ r :: post → r.id = i →
      (∀ x ∈ pre, x.id ≠ i) → m.find_run_by_id i = some r := by
  constructor
  · simp [WandbRunsModel.find_run_by_id, List.find?_eq_none]
  · intro pre r post hsplit hid hpre
    unfold WandbRunsModel.find_run_by_id
    rw [hsplit, List.find?_append]
    have h1 : pre.find? (fun run => run.id = i) = none := by
      rw [List.find?_eq_none]
      intro x hx
      simpa using hpre x hx
    have h2 : (r :: post).find? (fun run => run.id = i) = some r :=
      List.find?_cons_of_pos post (by simpa using hid)
    rw [h1, h2]
    rfl

/-- Witness for the amended C4: with the duplicate-id model, the earliest
record with id `"r1"` is returned. -/
theorem find_run_by_id_first_match_witness :
    demoDupModel.find_run_by_id ("r1") = some demoR1 :=
  (find_run_by_id_first_match demoDupModel ("r1")).2 [] demoR1 [demoR2]
    rfl rfl (by simp)

/-- Counterexample to claim C1 as stated: the service's installed predicate
rejects every record, so the filtered view before the edit is `[]`; editing
with the invalid text `"]["` reports a `FilterError` whose displayed message
is the fixed `"Invalid Filter"`, *discards* the previous predicate
(`exp = None` afterwards), and the filtered view after the failed edit is the
full list `[demoR1] ≠ []`. -/
theorem update_filter_discards_previous_predicate :
    demoSM.runs.filter (fun r => demoSvc.run_matches_filter r) = []
  ∧ (RunService.update_filter jmesDemo demoSvc ("][") demoSM).2
      = [.filterChanged [demoR1]
          (some (FilterError.make ["Bad jmespath expression: ]["] none))]
  ∧ (FilterError.make ["Bad jmespath expression: ]["] none).message
      = "Invalid Filter"
  ∧ (RunService.update_filter jmesDemo demoSvc ("][") demoSM).1.filter.exp = none
  ∧ demoSM.runs.filter (fun r =>
      (RunService.update_filter jmesDemo demoSvc ("][") demoSM).1.run_matches_filter r)
      = [demoR1]
  ∧ ([] : List RunData) ≠ [demoR1] :=
  ⟨rfl, rfl, rfl, rfl, rfl, fun h => nomatch h⟩

/-- Claim C1 amended: when the edited filter text fails to compile, the
filter-update path reports a `FilterError` whose displayed message is the
fixed `"Invalid Filter"` (the original diagnostic survives only in its
`args`), *replaces* the previously-installed predicate with the always-true
one (`exp = None`, every record matches afterwards), and notifies observers
with the full unfiltered record list rather than the previous filtered
view. -/
theorem update_filter_error_resets_predicate (compile : Compile)
    (svc : RunService) (t : String) (model : SModel) (d : String)
    (hne : ¬ pyStrip t = "") (hc : compile (pyStrip t) = .error d) :
    RunService.update_filter compile svc t model
      = (⟨⟨none⟩⟩, [.filterChanged model.runs
          (some (FilterError.make [d] none))])
  ∧ (FilterError.make [d] none).message = "Invalid Filter"
  ∧ ∀ r : RunData,
      (RunService.update_filter compile svc t model).1.run_matches_filter r
        = true := by
  have hq : svc.filter.update_query compile t
      = (⟨none⟩, some (FilterError.make [d] none)) := by
    unfold Filter.update_query
    rw [if_neg hne, hc]
  refine ⟨?_, rfl, ?_⟩
  · unfold RunService.update_filter
    rw [hq]
    rfl
  · intro r
    unfold RunService.update_filter
    rw [hq]
    rfl

/-- Witness for the amended C1 at the concrete invalid edit `"]["`. -/
theorem update_filter_error_resets_predicate_witness :
    (RunService.update_filter jmesDemo demoSvc ("][") demoSM).1.run_matches_filter
      demoR1 = true :=
  (update_filter_error_resets_predicate jmesDemo demoSvc ("][") demoSM
    ("Bad jmespath expression: ][") (by decide) rfl).2.2 demoR1

end WandbTui
